import Mathlib

/-!
# Verification of the getpaid payment / payout state machine core

Shallow embedding of `src/getpaid/models.py` (class `AbstractPayment`,
class `AbstractPayout`, mixin `BackendFieldMixin`) and of the callback
views in `src/getpaid/views.py` and `src/getpaid/rest_framework/views.py`.

Modelling conventions:

* Money fields are Django `DecimalField`s (fixed-point decimals).  The code
  only ever adds, subtracts and compares them - it never multiplies or
  divides - so scaled integers (`ℤ`) model them exactly; every Decimal
  value corresponds to an integer after scaling by a power of ten and all
  operations used commute with that scaling.  Negative values are
  representable, exactly as with Python's `Decimal`.
* A `django_fsm` `@transition(field=status, source=S, target=T,
  conditions=C)` method raises `TransitionNotAllowed` when the current
  status is not in `S` or a condition fails, otherwise runs the body and
  then sets the status to `T`.  We model each transition as a function
  `Payment → Option Payment` (`none` = `TransitionNotAllowed`).
* Methods that may raise return `Except`; the paired `List ProcCall`
  records the calls made to the backend processor, so "raises before
  contacting the processor" is "the call list is empty".
* `@atomic` rolls the transaction back when the body raises; modelled by
  `chargeAtomic`, which keeps the pre-state on error (in the error branch
  of `charge` no field was assigned before the raise, so the in-memory
  object is unchanged too).
* Timestamp fields (`created_on`, `refunded_on`, `last_payment_on`) and
  purely descriptive text fields are irrelevant to every claim and are
  omitted from the record.
-/

namespace GetPaid

/-- Payment statuses (`PaymentStatus` constants; database values from
`src/example/paywall/migrations/0002_auto_20200417_2107.py`:
"new", "prepared", "pre-auth", "charge_started", "partially_paid",
"paid", "failed", "refund_started", "refunded").  The Python constant
`PARTIAL` (db value "partially_paid") is spelled `PARTIALLY_PAID` here. -/
inductive PaymentStatus where
  | NEW
  | PREPARED
  | PRE_AUTH
  | IN_CHARGE
  | PARTIALLY_PAID
  | PAID
  | FAILED
  | REFUND_STARTED
  | REFUNDED
deriving DecidableEq, Repr

/-- Fraud statuses (`FraudStatus` constants; db values "unknown",
"accepted", "rejected", "check"). -/
inductive FraudStatus where
  | UNKNOWN
  | ACCEPTED
  | REJECTED
  | CHECK
deriving DecidableEq, Repr

/-- The fields of `AbstractPayment` that the modelled operations read or
write.  `amount_required`, `amount_locked`, `amount_paid` and
`amount_refunded` are the Decimal ledger fields; `backend` comes from
`BackendFieldMixin`. -/
structure Payment where
  backend : String
  amount_required : ℤ
  status : PaymentStatus
  amount_locked : ℤ
  amount_paid : ℤ
  amount_refunded : ℤ
  fraud_status : FraudStatus
  fraud_message : String
deriving DecidableEq, Repr

/-- A `Payment` as freshly created: the model field defaults are
`status=ps.NEW`, `amount_locked=0`, `amount_paid=0`, `amount_refunded=0`,
`fraud_status=fs.UNKNOWN`, `fraud_message=""`. -/
def newPayment (backend : String) (amount_required : ℤ) : Payment :=
  { backend := backend
    amount_required := amount_required
    status := .NEW
    amount_locked := 0
    amount_paid := 0
    amount_refunded := 0
    fraud_status := .UNKNOWN
    fraud_message := "" }

/-- `AbstractPayment.fully_paid`: `self.amount_paid >= self.amount_required`. -/
def fully_paid (p : Payment) : Bool :=
  p.amount_required ≤ p.amount_paid

/-- `confirm_prepared`: `@transition(source=ps.NEW, target=ps.PREPARED)`. -/
def confirm_prepared (p : Payment) : Option Payment :=
  if p.status = .NEW then some { p with status := .PREPARED } else none

/-- `confirm_lock`: `@transition(source=[ps.NEW, ps.PREPARED],
target=ps.PRE_AUTH)`; body sets `amount_locked` to the given amount,
defaulting to `amount_required`. -/
def confirm_lock (p : Payment) (amount : Option ℤ) : Option Payment :=
  if p.status = .NEW ∨ p.status = .PREPARED then
    let a := amount.getD p.amount_required
    some { p with status := .PRE_AUTH, amount_locked := a }
  else none

/-- `confirm_charge_sent`: `@transition(source=ps.PRE_AUTH,
target=ps.IN_CHARGE)`. -/
def confirm_charge_sent (p : Payment) : Option Payment :=
  if p.status = .PRE_AUTH then some { p with status := .IN_CHARGE } else none

/-- `confirm_payment`: `@transition(source=[ps.PRE_AUTH, ps.PREPARED,
ps.IN_CHARGE, ps.PARTIAL], target=ps.PARTIAL)`.  With `amount=None` the
body first replaces a zero (falsy) `amount_locked` by `amount_required`
(source comment: "coming directly from PREPARED") and then adds
`amount_locked` to `amount_paid`; with an explicit amount it adds that
amount. -/
def confirm_payment (p : Payment) (amount : Option ℤ) : Option Payment :=
  if p.status = .PRE_AUTH ∨ p.status = .PREPARED ∨ p.status = .IN_CHARGE ∨
      p.status = .PARTIALLY_PAID then
    match amount with
    | some a => some { p with status := .PARTIALLY_PAID, amount_paid := p.amount_paid + a }
    | none =>
      let locked := if p.amount_locked = 0 then p.amount_required else p.amount_locked
      some { p with status := .PARTIALLY_PAID, amount_locked := locked,
                    amount_paid := p.amount_paid + locked }
  else none

/-- `mark_as_paid`: `@transition(source=ps.PARTIAL, target=ps.PAID,
conditions=[_check_fully_paid])`. -/
def mark_as_paid (p : Payment) : Option Payment :=
  if p.status = .PARTIALLY_PAID ∧ fully_paid p = true then
    some { p with status := .PAID }
  else none

/-- `release_lock`: `@transition(source=ps.PRE_AUTH, target=ps.REFUNDED)`;
body sets `amount_refunded = amount_locked` and `amount_locked = 0`
(and calls the processor, see `release_lock_op`). -/
def release_lock (p : Payment) : Option Payment :=
  if p.status = .PRE_AUTH then
    some { p with status := .REFUNDED, amount_refunded := p.amount_locked,
                  amount_locked := 0 }
  else none

/-- Errors raised by `start_refund` / `charge`:  `django_fsm`'s
`TransitionNotAllowed`, Python's `ValueError`, getpaid's `ChargeFailure`. -/
inductive PaymentError where
  | transitionNotAllowed
  | valueError
  | chargeFailure
deriving DecidableEq, Repr

/-- A call made to the backend processor, with the amount passed. -/
inductive ProcCall where
  | charge (amount : ℤ)
  | start_refund (amount : ℤ)
deriving DecidableEq, Repr

/-- `start_refund`: `@transition(source=[ps.PAID, ps.PARTIAL],
target=ps.REFUND_STARTED)`; amount defaults to `amount_paid`; raises
`ValueError` when `amount > amount_paid` *before* the
`processor.start_refund` call (second component: processor calls). -/
def start_refund (p : Payment) (amount : Option ℤ) :
    Except PaymentError Payment × List ProcCall :=
  if p.status = .PAID ∨ p.status = .PARTIALLY_PAID then
    let a := amount.getD p.amount_paid
    if p.amount_paid < a then (.error .valueError, [])
    else (.ok { p with status := .REFUND_STARTED }, [ProcCall.start_refund a])
  else (.error .transitionNotAllowed, [])

/-- `cancel_refund`: `@transition(source=ps.REFUND_STARTED,
target=ps.PARTIAL)` (processor call modelled in `cancel_refund_op`). -/
def cancel_refund (p : Payment) : Option Payment :=
  if p.status = .REFUND_STARTED then
    some { p with status := .PARTIALLY_PAID }
  else none

/-- `confirm_refund`: `@transition(source=ps.REFUND_STARTED,
target=ps.PARTIAL)`; amount defaults to `amount_paid`; adds it to
`amount_refunded`. -/
def confirm_refund (p : Payment) (amount : Option ℤ) : Option Payment :=
  if p.status = .REFUND_STARTED then
    let a := amount.getD p.amount_paid
    some { p with status := .PARTIALLY_PAID, amount_refunded := p.amount_refunded + a }
  else none

/-- `mark_as_refunded`: `@transition(source=[ps.REFUND_STARTED,
ps.PARTIAL], target=ps.REFUNDED, conditions=[_is_full_refund])` where
`_is_full_refund` is `amount_refunded == amount_paid`. -/
def mark_as_refunded (p : Payment) : Option Payment :=
  if (p.status = .REFUND_STARTED ∨ p.status = .PARTIALLY_PAID) ∧
      p.amount_refunded = p.amount_paid then
    some { p with status := .REFUNDED }
  else none

/-- `fail`: `@transition(source=[ps.NEW, ps.PRE_AUTH, ps.PREPARED],
target=ps.FAILED)`. -/
def fail (p : Payment) : Option Payment :=
  if p.status = .NEW ∨ p.status = .PRE_AUTH ∨ p.status = .PREPARED then
    some { p with status := .FAILED }
  else none

/-- `___mark_as_fraud`: `@transition(field=fraud_status,
source=fs.UNKNOWN, target=fs.REJECTED)`; body assigns `fraud_message`. -/
def ___mark_as_fraud (p : Payment) (message : String) : Option Payment :=
  if p.fraud_status = .UNKNOWN then
    some { p with fraud_status := .REJECTED, fraud_message := message }
  else none

/-- `___mark_as_legit`: `@transition(field=fraud_status,
source=fs.UNKNOWN, target=fs.ACCEPTED)`; body assigns `fraud_message`. -/
def ___mark_as_legit (p : Payment) (message : String) : Option Payment :=
  if p.fraud_status = .UNKNOWN then
    some { p with fraud_status := .ACCEPTED, fraud_message := message }
  else none

/-- `___mark_for_check`: `@transition(field=fraud_status,
source=fs.UNKNOWN, target=fs.CHECK)`; body assigns `fraud_message`. -/
def ___mark_for_check (p : Payment) (message : String) : Option Payment :=
  if p.fraud_status = .UNKNOWN then
    some { p with fraud_status := .CHECK, fraud_message := message }
  else none

/-- `mark_as_fraud`: `@transition(field=fraud_status, source=fs.CHECK,
target=fs.REJECTED)`; appends a manual-reject marker and the message. -/
def mark_as_fraud (p : Payment) (message : String) : Option Payment :=
  if p.fraud_status = .CHECK then
    some { p with fraud_status := .REJECTED,
                  fraud_message := p.fraud_message ++ "\n==MANUAL REJECT==\n" ++ message }
  else none

/-- `mark_as_legit`: `@transition(field=fraud_status, source=fs.CHECK,
target=fs.ACCEPTED)`; appends a manual-accept marker and the message. -/
def mark_as_legit (p : Payment) (message : String) : Option Payment :=
  if p.fraud_status = .CHECK then
    some { p with fraud_status := .ACCEPTED,
                  fraud_message := p.fraud_message ++ "\n==MANUAL ACCEPT==\n" ++ message }
  else none

/-- The processor's `ChargeResponse` TypedDict: optional `amount_charged`,
optional flags `success` and `async_call` (absent = `False`). -/
structure ChargeResult where
  amount_charged : Option ℤ
  success : Bool
  async_call : Bool
deriving DecidableEq, Repr

/-- `AbstractPayment.charge` (`@atomic`): defaults `amount` to
`amount_locked`; raises `ValueError` when `amount > amount_locked`
*before* calling `processor.charge`; on `"amount_charged" in result or
result.get("success")` it assigns `amount_paid = result.get
("amount_charged", amount)`, subtracts that from `amount_locked`, runs
`confirm_payment()` (no amount) and, when `can_proceed`, `mark_as_paid()`;
on `result.get("async_call")` it runs `confirm_charge_sent` when
`can_proceed`; otherwise raises `ChargeFailure`.  The `result` argument is
the processor's response; the second component lists processor calls. -/
def charge (p : Payment) (amount : Option ℤ) (result : ChargeResult) :
    Except PaymentError Payment × List ProcCall :=
  let a := amount.getD p.amount_locked
  if p.amount_locked < a then (.error .valueError, [])
  else
    let calls := [ProcCall.charge a]
    if result.amount_charged.isSome || result.success then
      let paid := result.amount_charged.getD a
      let p1 := { p with amount_paid := paid, amount_locked := p.amount_locked - paid }
      match confirm_payment p1 none with
      | some p2 =>
        match mark_as_paid p2 with
        | some p3 => (.ok p3, calls)
        | none => (.ok p2, calls)
      | none => (.error .transitionNotAllowed, calls)
    else if result.async_call then
      match confirm_charge_sent p with
      | some p1 => (.ok p1, calls)
      | none => (.ok p, calls)
    else
      (.error .chargeFailure, calls)

/-- `charge` together with the `@atomic` decorator: when the body raises,
the transaction is rolled back and the stored payment is unchanged (and in
the raising branches no field had been assigned). -/
def chargeAtomic (p : Payment) (amount : Option ℤ) (result : ChargeResult) :
    Payment × Option PaymentError × List ProcCall :=
  match charge p amount result with
  | (.ok q, tr) => (q, none, tr)
  | (.error e, tr) => (p, some e, tr)

/-! ## Backend processor resolution (`BackendFieldMixin`, claim C6)

A `BaseProcessor` instance is constructed from the payment
(`processor(self)`); its methods answer the gateway calls.  We model the
instance by the responses it would give. -/

/-- `PaymentStatusResponse` TypedDict (the parts the core reads in
`fetch_and_update_status`): a proposed callback name and an amount. -/
structure StatusResponse where
  callback : Option String
  amount : Option ℤ
deriving DecidableEq, Repr

/-- A constructed `BaseProcessor` instance, modelled by its responses:
`prepare_transaction`, `charge`, `release_lock`, `start_refund`,
`cancel_refund`, `handle_paywall_callback`, `fetch_payment_status`.
Requests and HTTP responses are opaque strings. -/
structure Processor where
  prepare_transaction_r : String → String
  charge_r : ℤ → ChargeResult
  release_lock_r : ℤ
  start_refund_r : ℤ → ℤ
  cancel_refund_r : Bool
  handle_paywall_callback_r : String → String
  fetch_payment_status_r : StatusResponse

/-- The environment `get_processor` consults: the global backend
`registry` (a mapping from backend name to processor class), and Python
module import - `module_import b` stands for
`getattr(import_module(b), "PaymentProcessor")`.  A processor class is a
function from the payment to the constructed instance. -/
structure BackendEnv where
  registry : String → Option (Payment → Processor)
  module_import : String → (Payment → Processor)

/-- `BackendFieldMixin.get_processor`: take the class from the registry
when `self.backend in registry`, otherwise import the backend module and
use its `PaymentProcessor`; construct it with the payment. -/
def get_processor (env : BackendEnv) (p : Payment) : Processor :=
  match env.registry p.backend with
  | some cls => cls p
  | none => env.module_import p.backend p

/-- `AbstractPayment.prepare_transaction`: returns
`self.processor.prepare_transaction(request, ...)`. -/
def prepare_transaction (env : BackendEnv) (p : Payment) (request : String) : String :=
  (get_processor env p).prepare_transaction_r request

/-- `AbstractPayment.handle_paywall_callback`: returns
`self.processor.handle_paywall_callback(request, ...)`. -/
def handle_paywall_callback (env : BackendEnv) (p : Payment) (request : String) : String :=
  (get_processor env p).handle_paywall_callback_r request

/-- `AbstractPayment.fetch_status`: returns
`self.processor.fetch_payment_status()`. -/
def fetch_status (env : BackendEnv) (p : Payment) : StatusResponse :=
  (get_processor env p).fetch_payment_status_r

/-- `charge` with the processor response supplied by the resolved backend
processor. -/
def charge_op (env : BackendEnv) (p : Payment) (amount : Option ℤ) :
    Except PaymentError Payment × List ProcCall :=
  charge p amount ((get_processor env p).charge_r (amount.getD p.amount_locked))

/-- `release_lock` together with its `ret = self.processor.release_lock()`
result. -/
def release_lock_op (env : BackendEnv) (p : Payment) : Option (Payment × ℤ) :=
  (release_lock p).map (fun q => (q, (get_processor env p).release_lock_r))

/-- `start_refund` with the refund request answered by the resolved
processor (`ret = self.processor.start_refund(amount=amount)`). -/
def start_refund_op (env : BackendEnv) (p : Payment) (amount : Option ℤ) :
    Except PaymentError (Payment × ℤ) :=
  match start_refund p amount with
  | (.ok q, _) => .ok (q, (get_processor env p).start_refund_r (amount.getD p.amount_paid))
  | (.error e, _) => .error e

/-- `cancel_refund` together with its `ret = self.processor.cancel_refund()`
result. -/
def cancel_refund_op (env : BackendEnv) (p : Payment) : Option (Payment × Bool) :=
  (cancel_refund p).map (fun q => (q, (get_processor env p).cancel_refund_r))

/-! ## Payouts (`AbstractPayout`, claim C5) -/

/-- Payout statuses (`PayoutStatus` constants). -/
inductive PayoutStatus where
  | NEW
  | SUCCESS
  | FAILED
deriving DecidableEq, Repr

/-- The fields of `AbstractPayout` the modelled operation touches
(status default `PayoutStatus.NEW`, `external_id` and `failed_code`
default to `""`). -/
structure Payout where
  external_id : String
  failed_code : String
  status : PayoutStatus
deriving DecidableEq, Repr

/-- `mark_as_success`: `@transition(source=PayoutStatus.NEW,
target=PayoutStatus.SUCCESS)`. -/
def mark_as_success (po : Payout) : Option Payout :=
  if po.status = .NEW then some { po with status := .SUCCESS } else none

/-- `mark_as_failed`: `@transition(source=PayoutStatus.NEW,
target=PayoutStatus.FAILED)`. -/
def mark_as_failed (po : Payout) : Option Payout :=
  if po.status = .NEW then some { po with status := .FAILED } else none

/-- The gateway's successful payout response: the code reads
`response["payout"]["payoutId"]`. -/
structure PayoutOkResponse where
  payoutId : String
deriving DecidableEq, Repr

/-- A raised `PayoutFailure`: the handler reads
`e.context["raw_response"].json()["status"]["code"]`. -/
structure PayoutFailureData where
  code : String
deriving DecidableEq, Repr

/-- What `start_payout` can raise: `django_fsm.TransitionNotAllowed`
(re-raised from `mark_as_success` / `mark_as_failed`) or the re-raised
`PayoutFailure` (carrying the failure code it stored). -/
inductive PayoutError where
  | transitionNotAllowed
  | payoutFailure (code : String)
deriving DecidableEq, Repr

/-- `AbstractPayout.start_payout`.  The client call
(`_get_client_response`) either returns a response or raises
`PayoutFailure`; that outcome is the argument.  On success the code stores
the gateway `payoutId` in `external_id`, runs `mark_as_success` and saves;
on `PayoutFailure` it stores the failure code, runs `mark_as_failed`,
saves and re-raises.  The first component is the *persisted* payout
(unchanged when no `save()` was reached - a `TransitionNotAllowed` from
either mark transition propagates before the save); the second is the
exception, if any. -/
def start_payout (po : Payout) (resp : Except PayoutFailureData PayoutOkResponse) :
    Payout × Option PayoutError :=
  match resp with
  | .ok r =>
    let po1 := { po with external_id := r.payoutId }
    match mark_as_success po1 with
    | some po2 => (po2, none)
    | none => (po, some .transitionNotAllowed)
  | .error e =>
    let po1 := { po with failed_code := e.code }
    match mark_as_failed po1 with
    | some po2 => (po2, some (.payoutFailure e.code))
    | none => (po, some .transitionNotAllowed)

/-! ## The transition relation and reachability (claims C3, C4, C9, C10)

One `Step` per declared `django_fsm` transition of `AbstractPayment`
(the eleven status transitions and the five fraud transitions), with
arbitrary amount and message arguments. -/

/-- A single declared FSM transition firing successfully. -/
inductive Step : Payment → Payment → Prop where
  | prepared {p q : Payment} :
      confirm_prepared p = some q → Step p q
  | lock {p q : Payment} (amount : Option ℤ) :
      confirm_lock p amount = some q → Step p q
  | chargeSent {p q : Payment} :
      confirm_charge_sent p = some q → Step p q
  | payment {p q : Payment} (amount : Option ℤ) :
      confirm_payment p amount = some q → Step p q
  | markPaid {p q : Payment} :
      mark_as_paid p = some q → Step p q
  | releaseLock {p q : Payment} :
      release_lock p = some q → Step p q
  | startRefund {p q : Payment} (amount : Option ℤ) :
      (start_refund p amount).1 = .ok q → Step p q
  | cancelRefund {p q : Payment} :
      cancel_refund p = some q → Step p q
  | confirmRefund {p q : Payment} (amount : Option ℤ) :
      confirm_refund p amount = some q → Step p q
  | markRefunded {p q : Payment} :
      mark_as_refunded p = some q → Step p q
  | failed {p q : Payment} :
      fail p = some q → Step p q
  | uberFraud {p q : Payment} (m : String) :
      ___mark_as_fraud p m = some q → Step p q
  | uberLegit {p q : Payment} (m : String) :
      ___mark_as_legit p m = some q → Step p q
  | uberCheck {p q : Payment} (m : String) :
      ___mark_for_check p m = some q → Step p q
  | manualFraud {p q : Payment} (m : String) :
      mark_as_fraud p m = some q → Step p q
  | manualLegit {p q : Payment} (m : String) :
      mark_as_legit p m = some q → Step p q

/-- Reflexive-transitive closure of `Step`: the states a payment can be
driven to by a sequence of declared transitions. -/
inductive Reach : Payment → Payment → Prop where
  | refl (p : Payment) : Reach p p
  | tail {p q r : Payment} : Reach p q → Step q r → Reach p r

/-- An executable name for each transition, with its arguments; used by
`runPath` to exhibit concrete reachability witnesses. -/
inductive Call where
  | prepared
  | lock (amount : Option ℤ)
  | chargeSent
  | payment (amount : Option ℤ)
  | markPaid
  | releaseLock
  | startRefund (amount : Option ℤ)
  | cancelRefund
  | confirmRefund (amount : Option ℤ)
  | markRefunded
  | failed
deriving DecidableEq, Repr

/-- Apply one named transition. -/
def apply1 (p : Payment) : Call → Option Payment
  | .prepared => confirm_prepared p
  | .lock a => confirm_lock p a
  | .chargeSent => confirm_charge_sent p
  | .payment a => confirm_payment p a
  | .markPaid => mark_as_paid p
  | .releaseLock => release_lock p
  | .startRefund a =>
    match start_refund p a with
    | (.ok q, _) => some q
    | (.error _, _) => none
  | .cancelRefund => cancel_refund p
  | .confirmRefund a => confirm_refund p a
  | .markRefunded => mark_as_refunded p
  | .failed => fail p

/-- Run a sequence of named transitions. -/
def runPath (p : Payment) : List Call → Option Payment
  | [] => some p
  | c :: cs => (apply1 p c).bind (fun q => runPath q cs)


/-- Decidable equality for `Except` outcomes, so concrete runs of
`charge` and `start_refund` can be checked by `decide`. -/
instance {e a : Type} [DecidableEq e] [DecidableEq a] : DecidableEq (Except e a) := fun x y =>
  match x, y with
  | .error e1, .error e2 => decidable_of_iff (e1 = e2) (by simp)
  | .error _, .ok _ => isFalse (by simp)
  | .ok _, .error _ => isFalse (by simp)
  | .ok a1, .ok a2 => decidable_of_iff (a1 = a2) (by simp)

/-- A payment status from which `fail` can no longer ever be reached:
the payment has gone past `PRE_AUTH`. -/
def AdvancedStatus (s : PaymentStatus) : Prop :=
  s = .IN_CHARGE ∨ s = .PARTIALLY_PAID ∨ s = .PAID ∨ s = .REFUND_STARTED ∨ s = .REFUNDED

instance : DecidablePred AdvancedStatus := fun s => by
  unfold AdvancedStatus
  infer_instance

/-! ## Concrete instances used as inputs below -/

/-- A pre-authorized payment over 100.00 with the full amount locked and
nothing paid yet. -/
def chargeDemoPayment : Payment :=
  { backend := "getpaid_payu"
    amount_required := 100
    status := .PRE_AUTH
    amount_locked := 100
    amount_paid := 0
    amount_refunded := 0
    fraud_status := .UNKNOWN
    fraud_message := "" }

/-- A processor response reporting a plain successful synchronous charge
(no explicit `amount_charged`). -/
def successResult : ChargeResult :=
  { amount_charged := none, success := true, async_call := false }

/-- A processor response reporting neither a successful charge nor an
asynchronous call. -/
def failureResult : ChargeResult :=
  { amount_charged := none, success := false, async_call := false }

/-- What `charge(amount=50)` actually produces on `chargeDemoPayment`
with `successResult`. -/
def chargeDemoAfter : Payment :=
  { chargeDemoPayment with status := .PAID, amount_paid := 100, amount_locked := 50 }

/-- A fully paid payment over 70.00. -/
def refundDemoPayment : Payment :=
  { backend := "getpaid_payu"
    amount_required := 70
    status := .PAID
    amount_locked := 0
    amount_paid := 70
    amount_refunded := 0
    fraud_status := .ACCEPTED
    fraud_message := "" }

/-- The state reached from `newPayment "b" 1` by `confirm_lock(None)`
then `confirm_payment(None)`. -/
def partialDemoPayment : Payment :=
  { backend := "b"
    amount_required := 1
    status := .PARTIALLY_PAID
    amount_locked := 1
    amount_paid := 1
    amount_refunded := 0
    fraud_status := .UNKNOWN
    fraud_message := "" }

/-- `partialDemoPayment` after `confirm_payment(amount=-1)`. -/
def partialDemoAfterNeg : Payment :=
  { partialDemoPayment with amount_paid := 0 }

/-- A paid payment, used to instantiate the `AdvancedStatus` results. -/
def paidDemoPayment : Payment :=
  { backend := "b"
    amount_required := 5
    status := .PAID
    amount_locked := 0
    amount_paid := 5
    amount_refunded := 0
    fraud_status := .UNKNOWN
    fraud_message := "" }

/-- A payment whose fraud status is `CHECK`, awaiting a manual decision. -/
def checkDemoPayment : Payment :=
  { backend := "b"
    amount_required := 1
    status := .NEW
    amount_locked := 0
    amount_paid := 0
    amount_refunded := 0
    fraud_status := .CHECK
    fraud_message := "auto" }

/-- A fresh payout (field defaults: empty ids, status `NEW`). -/
def payoutDemo : Payout :=
  { external_id := "", failed_code := "", status := .NEW }

/-- A payout already completed successfully. -/
def payoutDemoDone : Payout :=
  { external_id := "ext-1", failed_code := "", status := .SUCCESS }

/-- A registered processor class for the demo backend. -/
def demoProcessor (p : Payment) : Processor :=
  { prepare_transaction_r := fun r => p.backend ++ ":" ++ r
    charge_r := fun a => { amount_charged := some a, success := true, async_call := false }
    release_lock_r := 0
    start_refund_r := fun a => a
    cancel_refund_r := true
    handle_paywall_callback_r := fun r => r
    fetch_payment_status_r := { callback := none, amount := none } }

/-- The processor class obtained by importing an unregistered backend
module (its `PaymentProcessor` attribute). -/
def demoFallbackProcessor (p : Payment) : Processor :=
  { prepare_transaction_r := fun r => r
    charge_r := fun _ => { amount_charged := none, success := false, async_call := true }
    release_lock_r := 1
    start_refund_r := fun _ => 0
    cancel_refund_r := false
    handle_paywall_callback_r := fun _ => p.backend
    fetch_payment_status_r := { callback := none, amount := none } }

/-- A backend environment whose registry knows only `"getpaid_payu"`. -/
def demoEnv : BackendEnv :=
  { registry := fun b => if b = "getpaid_payu" then some demoProcessor else none
    module_import := fun _ => demoFallbackProcessor }

theorem apply1_step {p q : Payment} {c : Call} (h : apply1 p c = some q) : Step p q := by
  cases c with
  | prepared => exact .prepared h
  | lock a => exact .lock a h
  | chargeSent => exact .chargeSent h
  | payment a => exact .payment a h
  | markPaid => exact .markPaid h
  | releaseLock => exact .releaseLock h
  | startRefund a =>
    simp only [apply1] at h
    split at h
    · cases h
      exact .startRefund a (by simp_all)
    · cases h
  | cancelRefund => exact .cancelRefund h
  | confirmRefund a => exact .confirmRefund a h
  | markRefunded => exact .markRefunded h
  | failed => exact .failed h

theorem reach_head {p q r : Payment} (h : Step p q) (h2 : Reach q r) : Reach p r := by
  induction h2 with
  | refl => exact Reach.tail (Reach.refl _) h
  | tail _ hs ih => exact Reach.tail ih hs

theorem runPath_reach {p q : Payment} (cs : List Call) (h : runPath p cs = some q) :
    Reach p q := by
  induction cs generalizing p with
  | nil =>
    simp only [runPath, Option.some.injEq] at h
    subst h
    exact Reach.refl p
  | cons c cs ih =>
    simp only [runPath, Option.bind_eq_some] at h
    obtain ⟨r, hr, hrest⟩ := h
    exact reach_head (apply1_step hr) (ih hrest)

/-! ## Characterizations of the transitions -/

theorem confirm_prepared_some {p q : Payment} :
    confirm_prepared p = some q ↔
      p.status = .NEW ∧ q = { p with status := .PREPARED } := by
  unfold confirm_prepared
  split <;> rename_i h
  · simp only [Option.some.injEq]
    exact ⟨fun h2 => ⟨h, h2.symm⟩, fun h2 => h2.2.symm⟩
  · simp [h]

theorem confirm_lock_some {p q : Payment} {amount : Option ℤ} :
    confirm_lock p amount = some q ↔
      (p.status = .NEW ∨ p.status = .PREPARED) ∧
      q = { p with status := .PRE_AUTH,
                   amount_locked := amount.getD p.amount_required } := by
  unfold confirm_lock
  split <;> rename_i h
  · simp only [Option.some.injEq]
    exact ⟨fun h2 => ⟨h, h2.symm⟩, fun h2 => h2.2.symm⟩
  · simp [h]

theorem confirm_charge_sent_some {p q : Payment} :
    confirm_charge_sent p = some q ↔
      p.status = .PRE_AUTH ∧ q = { p with status := .IN_CHARGE } := by
  unfold confirm_charge_sent
  split <;> rename_i h
  · simp only [Option.some.injEq]
    exact ⟨fun h2 => ⟨h, h2.symm⟩, fun h2 => h2.2.symm⟩
  · simp [h]

theorem confirm_payment_some {p q : Payment} {a : ℤ} :
    confirm_payment p (some a) = some q ↔
      (p.status = .PRE_AUTH ∨ p.status = .PREPARED ∨ p.status = .IN_CHARGE ∨
        p.status = .PARTIALLY_PAID) ∧
      q = { p with status := .PARTIALLY_PAID,
                   amount_paid := p.amount_paid + a } := by
  unfold confirm_payment
  split <;> rename_i h
  · simp only [Option.some.injEq]
    exact ⟨fun h2 => ⟨h, h2.symm⟩, fun h2 => h2.2.symm⟩
  · simp [h]

theorem confirm_payment_none {p q : Payment} :
    confirm_payment p none = some q ↔
      (p.status = .PRE_AUTH ∨ p.status = .PREPARED ∨ p.status = .IN_CHARGE ∨
        p.status = .PARTIALLY_PAID) ∧
      q = { p with status := .PARTIALLY_PAID,
                   amount_locked :=
                     if p.amount_locked = 0 then p.amount_required else p.amount_locked,
                   amount_paid :=
                     p.amount_paid +
                       if p.amount_locked = 0 then p.amount_required else p.amount_locked } := by
  unfold confirm_payment
  split <;> rename_i h
  · simp only [Option.some.injEq]
    exact ⟨fun h2 => ⟨h, h2.symm⟩, fun h2 => h2.2.symm⟩
  · simp [h]

theorem mark_as_paid_some {p q : Payment} :
    mark_as_paid p = some q ↔
      p.status = .PARTIALLY_PAID ∧ p.amount_required ≤ p.amount_paid ∧
      q = { p with status := .PAID } := by
  unfold mark_as_paid
  split <;> rename_i h
  · simp only [Option.some.injEq]
    rw [fully_paid, decide_eq_true_eq] at h
    exact ⟨fun h2 => ⟨h.1, h.2, h2.symm⟩, fun h2 => h2.2.2.symm⟩
  · rw [fully_paid, decide_eq_true_eq] at h
    constructor
    · intro h2
      exact Option.noConfusion h2
    · rintro ⟨h1, h2, -⟩
      exact absurd ⟨h1, h2⟩ h

theorem release_lock_some {p q : Payment} :
    release_lock p = some q ↔
      p.status = .PRE_AUTH ∧
      q = { p with status := .REFUNDED, amount_refunded := p.amount_locked,
                   amount_locked := 0 } := by
  unfold release_lock
  split <;> rename_i h
  · simp only [Option.some.injEq]
    exact ⟨fun h2 => ⟨h, h2.symm⟩, fun h2 => h2.2.symm⟩
  · simp [h]

theorem start_refund_ok {p q : Payment} {amount : Option ℤ} :
    (start_refund p amount).1 = .ok q ↔
      (p.status = .PAID ∨ p.status = .PARTIALLY_PAID) ∧
      amount.getD p.amount_paid ≤ p.amount_paid ∧
      q = { p with status := .REFUND_STARTED } := by
  unfold start_refund
  split <;> rename_i h
  · dsimp only
    split <;> rename_i h2
    · simp [not_le.mpr h2]
    · simp only [Except.ok.injEq]
      exact ⟨fun h3 => ⟨h, not_lt.mp h2, h3.symm⟩, fun h3 => h3.2.2.symm⟩
  · simp [h]

theorem cancel_refund_some {p q : Payment} :
    cancel_refund p = some q ↔
      p.status = .REFUND_STARTED ∧ q = { p with status := .PARTIALLY_PAID } := by
  unfold cancel_refund
  split <;> rename_i h
  · simp only [Option.some.injEq]
    exact ⟨fun h2 => ⟨h, h2.symm⟩, fun h2 => h2.2.symm⟩
  · simp [h]

theorem confirm_refund_some {p q : Payment} {amount : Option ℤ} :
    confirm_refund p amount = some q ↔
      p.status = .REFUND_STARTED ∧
      q = { p with status := .PARTIALLY_PAID,
                   amount_refunded := p.amount_refunded + amount.getD p.amount_paid } := by
  unfold confirm_refund
  split <;> rename_i h
  · simp only [Option.some.injEq]
    exact ⟨fun h2 => ⟨h, h2.symm⟩, fun h2 => h2.2.symm⟩
  · simp [h]

theorem mark_as_refunded_some {p q : Payment} :
    mark_as_refunded p = some q ↔
      (p.status = .REFUND_STARTED ∨ p.status = .PARTIALLY_PAID) ∧
      p.amount_refunded = p.amount_paid ∧
      q = { p with status := .REFUNDED } := by
  unfold mark_as_refunded
  split <;> rename_i h
  · simp only [Option.some.injEq]
    exact ⟨fun h2 => ⟨h.1, h.2, h2.symm⟩, fun h2 => h2.2.2.symm⟩
  · constructor
    · intro h2
      exact Option.noConfusion h2
    · rintro ⟨h1, h2, -⟩
      exact absurd ⟨h1, h2⟩ h

theorem fail_some {p q : Payment} :
    fail p = some q ↔
      (p.status = .NEW ∨ p.status = .PRE_AUTH ∨ p.status = .PREPARED) ∧
      q = { p with status := .FAILED } := by
  unfold fail
  split <;> rename_i h
  · simp only [Option.some.injEq]
    exact ⟨fun h2 => ⟨h, h2.symm⟩, fun h2 => h2.2.symm⟩
  · simp [h]

theorem ___mark_as_fraud_some {p q : Payment} {m : String} :
    ___mark_as_fraud p m = some q ↔
      p.fraud_status = .UNKNOWN ∧
      q = { p with fraud_status := .REJECTED, fraud_message := m } := by
  unfold ___mark_as_fraud
  split <;> rename_i h
  · simp only [Option.some.injEq]
    exact ⟨fun h2 => ⟨h, h2.symm⟩, fun h2 => h2.2.symm⟩
  · simp [h]

theorem ___mark_as_legit_some {p q : Payment} {m : String} :
    ___mark_as_legit p m = some q ↔
      p.fraud_status = .UNKNOWN ∧
      q = { p with fraud_status := .ACCEPTED, fraud_message := m } := by
  unfold ___mark_as_legit
  split <;> rename_i h
  · simp only [Option.some.injEq]
    exact ⟨fun h2 => ⟨h, h2.symm⟩, fun h2 => h2.2.symm⟩
  · simp [h]

theorem ___mark_for_check_some {p q : Payment} {m : String} :
    ___mark_for_check p m = some q ↔
      p.fraud_status = .UNKNOWN ∧
      q = { p with fraud_status := .CHECK, fraud_message := m } := by
  unfold ___mark_for_check
  split <;> rename_i h
  · simp only [Option.some.injEq]
    exact ⟨fun h2 => ⟨h, h2.symm⟩, fun h2 => h2.2.symm⟩
  · simp [h]

theorem mark_as_fraud_some {p q : Payment} {m : String} :
    mark_as_fraud p m = some q ↔
      p.fraud_status = .CHECK ∧
      q = { p with fraud_status := .REJECTED,
                   fraud_message := p.fraud_message ++ "\n==MANUAL REJECT==\n" ++ m } := by
  unfold mark_as_fraud
  split <;> rename_i h
  · simp only [Option.some.injEq]
    exact ⟨fun h2 => ⟨h, h2.symm⟩, fun h2 => h2.2.symm⟩
  · simp [h]

theorem mark_as_legit_some {p q : Payment} {m : String} :
    mark_as_legit p m = some q ↔
      p.fraud_status = .CHECK ∧
      q = { p with fraud_status := .ACCEPTED,
                   fraud_message := p.fraud_message ++ "\n==MANUAL ACCEPT==\n" ++ m } := by
  unfold mark_as_legit
  split <;> rename_i h
  · simp only [Option.some.injEq]
    exact ⟨fun h2 => ⟨h, h2.symm⟩, fun h2 => h2.2.symm⟩
  · simp [h]

/-- Master inversion: every successful `Step` is one of the fourteen
shapes below (the three processor-driven fraud transitions are merged, as
are the two manual ones). -/
theorem step_cases {p q : Payment} (h : Step p q) :
    (p.status = .NEW ∧ q = { p with status := .PREPARED }) ∨
    (∃ a, (p.status = .NEW ∨ p.status = .PREPARED) ∧
      q = { p with status := .PRE_AUTH, amount_locked := a }) ∨
    (p.status = .PRE_AUTH ∧ q = { p with status := .IN_CHARGE }) ∨
    (∃ a, (p.status = .PRE_AUTH ∨ p.status = .PREPARED ∨ p.status = .IN_CHARGE ∨
        p.status = .PARTIALLY_PAID) ∧
      q = { p with status := .PARTIALLY_PAID, amount_paid := p.amount_paid + a }) ∨
    ((p.status = .PRE_AUTH ∨ p.status = .PREPARED ∨ p.status = .IN_CHARGE ∨
        p.status = .PARTIALLY_PAID) ∧
      q = { p with status := .PARTIALLY_PAID,
                   amount_locked :=
                     if p.amount_locked = 0 then p.amount_required else p.amount_locked,
                   amount_paid :=
                     p.amount_paid +
                       if p.amount_locked = 0 then p.amount_required else p.amount_locked }) ∨
    (p.status = .PARTIALLY_PAID ∧ p.amount_required ≤ p.amount_paid ∧
      q = { p with status := .PAID }) ∨
    (p.status = .PRE_AUTH ∧
      q = { p with status := .REFUNDED, amount_refunded := p.amount_locked,
                   amount_locked := 0 }) ∨
    ((p.status = .PAID ∨ p.status = .PARTIALLY_PAID) ∧
      q = { p with status := .REFUND_STARTED }) ∨
    (p.status = .REFUND_STARTED ∧ q = { p with status := .PARTIALLY_PAID }) ∨
    (∃ a, p.status = .REFUND_STARTED ∧
      q = { p with status := .PARTIALLY_PAID, amount_refunded := p.amount_refunded + a }) ∨
    ((p.status = .REFUND_STARTED ∨ p.status = .PARTIALLY_PAID) ∧
      p.amount_refunded = p.amount_paid ∧ q = { p with status := .REFUNDED }) ∨
    ((p.status = .NEW ∨ p.status = .PRE_AUTH ∨ p.status = .PREPARED) ∧
      q = { p with status := .FAILED }) ∨
    (∃ m f2, p.fraud_status = .UNKNOWN ∧
      (f2 = FraudStatus.REJECTED ∨ f2 = .ACCEPTED ∨ f2 = .CHECK) ∧
      q = { p with fraud_status := f2, fraud_message := m }) ∨
    (∃ m f2, p.fraud_status = .CHECK ∧
      (f2 = FraudStatus.REJECTED ∨ f2 = .ACCEPTED) ∧
      q = { p with fraud_status := f2, fraud_message := m }) := by
  cases h with
  | prepared h =>
    exact Or.inl (confirm_prepared_some.mp h)
  | lock a h =>
    obtain ⟨h1, h2⟩ := confirm_lock_some.mp h
    exact Or.inr (Or.inl ⟨_, h1, h2⟩)
  | chargeSent h =>
    exact Or.inr (Or.inr (Or.inl (confirm_charge_sent_some.mp h)))
  | payment a h =>
    cases a with
    | some a =>
      obtain ⟨h1, h2⟩ := confirm_payment_some.mp h
      exact Or.inr (Or.inr (Or.inr (Or.inl ⟨a, h1, h2⟩)))
    | none =>
      obtain ⟨h1, h2⟩ := confirm_payment_none.mp h
      exact Or.inr (Or.inr (Or.inr (Or.inr (Or.inl ⟨h1, h2⟩))))
  | markPaid h =>
    obtain ⟨h1, h2, h3⟩ := mark_as_paid_some.mp h
    exact Or.inr (Or.inr (Or.inr (Or.inr (Or.inr (Or.inl ⟨h1, h2, h3⟩)))))
  | releaseLock h =>
    obtain ⟨h1, h2⟩ := release_lock_some.mp h
    exact Or.inr (Or.inr (Or.inr (Or.inr (Or.inr (Or.inr (Or.inl ⟨h1, h2⟩))))))
  | startRefund a h =>
    obtain ⟨h1, _, h3⟩ := start_refund_ok.mp h
    exact Or.inr (Or.inr (Or.inr (Or.inr (Or.inr (Or.inr (Or.inr (Or.inl ⟨h1, h3⟩)))))))
  | cancelRefund h =>
    obtain ⟨h1, h2⟩ := cancel_refund_some.mp h
    exact Or.inr (Or.inr (Or.inr (Or.inr (Or.inr (Or.inr (Or.inr (Or.inr
      (Or.inl ⟨h1, h2⟩))))))))
  | confirmRefund a h =>
    obtain ⟨h1, h2⟩ := confirm_refund_some.mp h
    exact Or.inr (Or.inr (Or.inr (Or.inr (Or.inr (Or.inr (Or.inr (Or.inr (Or.inr
      (Or.inl ⟨_, h1, h2⟩)))))))))
  | markRefunded h =>
    obtain ⟨h1, h2, h3⟩ := mark_as_refunded_some.mp h
    exact Or.inr (Or.inr (Or.inr (Or.inr (Or.inr (Or.inr (Or.inr (Or.inr (Or.inr
      (Or.inr (Or.inl ⟨h1, h2, h3⟩))))))))))
  | failed h =>
    obtain ⟨h1, h2⟩ := fail_some.mp h
    exact Or.inr (Or.inr (Or.inr (Or.inr (Or.inr (Or.inr (Or.inr (Or.inr (Or.inr
      (Or.inr (Or.inr (Or.inl ⟨h1, h2⟩)))))))))))
  | uberFraud m h =>
    obtain ⟨h1, h2⟩ := ___mark_as_fraud_some.mp h
    exact Or.inr (Or.inr (Or.inr (Or.inr (Or.inr (Or.inr (Or.inr (Or.inr (Or.inr
      (Or.inr (Or.inr (Or.inr (Or.inl ⟨m, _, h1, Or.inl rfl, h2⟩))))))))))))
  | uberLegit m h =>
    obtain ⟨h1, h2⟩ := ___mark_as_legit_some.mp h
    exact Or.inr (Or.inr (Or.inr (Or.inr (Or.inr (Or.inr (Or.inr (Or.inr (Or.inr
      (Or.inr (Or.inr (Or.inr (Or.inl ⟨m, _, h1, Or.inr (Or.inl rfl), h2⟩))))))))))))
  | uberCheck m h =>
    obtain ⟨h1, h2⟩ := ___mark_for_check_some.mp h
    exact Or.inr (Or.inr (Or.inr (Or.inr (Or.inr (Or.inr (Or.inr (Or.inr (Or.inr
      (Or.inr (Or.inr (Or.inr (Or.inl ⟨m, _, h1, Or.inr (Or.inr rfl), h2⟩))))))))))))
  | manualFraud m h =>
    obtain ⟨h1, h2⟩ := mark_as_fraud_some.mp h
    exact Or.inr (Or.inr (Or.inr (Or.inr (Or.inr (Or.inr (Or.inr (Or.inr (Or.inr
      (Or.inr (Or.inr (Or.inr (Or.inr ⟨_, _, h1, Or.inl rfl, h2⟩))))))))))))
  | manualLegit m h =>
    obtain ⟨h1, h2⟩ := mark_as_legit_some.mp h
    exact Or.inr (Or.inr (Or.inr (Or.inr (Or.inr (Or.inr (Or.inr (Or.inr (Or.inr
      (Or.inr (Or.inr (Or.inr (Or.inr ⟨_, _, h1, Or.inr rfl, h2⟩))))))))))))

/-! ## Claim theorems -/

/-- C1: the amount-conservation claim for `charge` fails on the code.
For the `PRE_AUTH` payment with `amount_locked = 100` and
`amount_paid = 0`, a successful synchronous `charge(amount=50)` (the
processor reports plain success, so the charged amount defaults to 50)
produces `amount_paid = 100`, `amount_locked = 50` and status `PAID`:
`charge` first assigns `amount_paid = 50` and subtracts it from the lock,
but the subsequent `confirm_payment()` *adds the remaining lock* to
`amount_paid` again, so the paid ledger does not equal the charged
amount and `amount_locked + amount_paid` grows from 100 to 150. -/
theorem C1_charge_not_conservative :
    charge chargeDemoPayment (some 50) successResult =
      (.ok chargeDemoAfter, [ProcCall.charge 50]) ∧
    chargeDemoAfter.amount_paid ≠ 50 ∧
    chargeDemoAfter.amount_locked + chargeDemoAfter.amount_paid ≠
      chargeDemoPayment.amount_locked + chargeDemoPayment.amount_paid := by
  decide

/-- C2: refunds are bounded by the amount paid.  For a payment in status
`PAID` or `PARTIAL`, `start_refund(amount=a)` with `a > amount_paid`
raises `ValueError` without contacting the processor (no processor call
recorded), and `start_refund()` with the amount omitted succeeds and
requests a refund of exactly `amount_paid` from the processor. -/
theorem C2_start_refund_bounded (p : Payment)
    (h : p.status = .PAID ∨ p.status = .PARTIALLY_PAID) :
    (∀ a : ℤ, p.amount_paid < a →
      start_refund p (some a) = (.error .valueError, [])) ∧
    start_refund p none =
      (.ok { p with status := .REFUND_STARTED },
       [ProcCall.start_refund p.amount_paid]) := by
  constructor
  · intro a ha
    unfold start_refund
    rw [if_pos h]
    dsimp only [Option.getD]
    rw [if_pos ha]
  · unfold start_refund
    rw [if_pos h]
    dsimp only [Option.getD]
    rw [if_neg (lt_irrefl p.amount_paid)]

theorem C2_start_refund_bounded_witness :
    start_refund refundDemoPayment (some 71) = (.error .valueError, []) ∧
    start_refund refundDemoPayment none =
      (.ok { refundDemoPayment with status := .REFUND_STARTED },
       [ProcCall.start_refund refundDemoPayment.amount_paid]) :=
  ⟨(C2_start_refund_bounded refundDemoPayment (Or.inl rfl)).1 71 (by decide),
   (C2_start_refund_bounded refundDemoPayment (Or.inl rfl)).2⟩

/-- C8: `charge` is guarded and atomic on error.  For any payment and any
processor response: `charge(amount=a)` with `a > amount_locked` raises
`ValueError` with no processor call made (the outcome is the same for
every possible response, and the call list is empty); and when the
response reports neither a successful charge (`amount_charged` absent,
`success` false) nor an asynchronous call, `charge` raises
`ChargeFailure` and the persisted payment - status and all amount
fields - is exactly the pre-state. -/
theorem C8_charge_guard_atomic (p : Payment) (result : ChargeResult) :
    (∀ a : ℤ, p.amount_locked < a →
      chargeAtomic p (some a) result = (p, some .valueError, [])) ∧
    (result.amount_charged = none → result.success = false →
      result.async_call = false →
      (∀ a : ℤ, a ≤ p.amount_locked →
        chargeAtomic p (some a) result =
          (p, some .chargeFailure, [ProcCall.charge a])) ∧
      chargeAtomic p none result =
        (p, some .chargeFailure, [ProcCall.charge p.amount_locked])) := by
  constructor
  · intro a ha
    unfold chargeAtomic charge
    dsimp only [Option.getD]
    rw [if_pos ha]
  · intro h1 h2 h3
    constructor
    · intro a ha
      unfold chargeAtomic charge
      dsimp only [Option.getD]
      rw [if_neg (not_lt.mpr ha)]
      simp [h1, h2, h3]
    · unfold chargeAtomic charge
      dsimp only [Option.getD]
      rw [if_neg (lt_irrefl p.amount_locked)]
      simp [h1, h2, h3]

theorem C8_charge_guard_atomic_witness :
    chargeAtomic chargeDemoPayment (some 101) failureResult =
      (chargeDemoPayment, some .valueError, []) ∧
    chargeAtomic chargeDemoPayment (some 50) failureResult =
      (chargeDemoPayment, some .chargeFailure, [ProcCall.charge 50]) :=
  ⟨(C8_charge_guard_atomic chargeDemoPayment failureResult).1 101 (by decide),
   ((C8_charge_guard_atomic chargeDemoPayment failureResult).2 rfl rfl rfl).1 50
     (by decide)⟩

/-- C5: payout state machine.  A `NEW` payout started with a successful
gateway call stores the gateway's `payoutId` in `external_id` and moves
to `SUCCESS` with nothing raised; on `PayoutFailure` it stores the
failure code from the response, moves to `FAILED`, persists that state
and re-raises the failure.  `SUCCESS` and `FAILED` have no outgoing
transitions (`mark_as_success` / `mark_as_failed` refuse), so
`start_payout` on an already-started payout leaves the persisted payout
unchanged and raises `TransitionNotAllowed`. -/
theorem C5_payout_machine (po : Payout) :
    (po.status = .NEW →
      (∀ r : PayoutOkResponse,
        start_payout po (.ok r) =
          ({ po with external_id := r.payoutId, status := .SUCCESS }, none)) ∧
      (∀ e : PayoutFailureData,
        start_payout po (.error e) =
          ({ po with failed_code := e.code, status := .FAILED },
           some (.payoutFailure e.code)))) ∧
    ((po.status = .SUCCESS ∨ po.status = .FAILED) →
      mark_as_success po = none ∧ mark_as_failed po = none ∧
      ∀ resp, start_payout po resp = (po, some .transitionNotAllowed)) := by
  constructor
  · intro h
    constructor
    · intro r
      simp [start_payout, mark_as_success, h]
    · intro e
      simp [start_payout, mark_as_failed, h]
  · intro h
    have hne : po.status ≠ .NEW := by
      rcases h with h | h <;> rw [h] <;> intro h2 <;> cases h2
    refine ⟨by simp [mark_as_success, hne], by simp [mark_as_failed, hne], ?_⟩
    intro resp
    cases resp with
    | ok r => simp [start_payout, mark_as_success, hne]
    | error e => simp [start_payout, mark_as_failed, hne]

theorem C5_payout_machine_witness :
    start_payout payoutDemo (.ok { payoutId := "ext-1" }) =
      ({ payoutDemo with external_id := "ext-1", status := .SUCCESS }, none) ∧
    start_payout payoutDemo (.error { code := "INSUFFICIENT_FUNDS" }) =
      ({ payoutDemo with failed_code := "INSUFFICIENT_FUNDS", status := .FAILED },
       some (.payoutFailure "INSUFFICIENT_FUNDS")) ∧
    mark_as_success payoutDemoDone = none :=
  ⟨((C5_payout_machine payoutDemo).1 rfl).1 { payoutId := "ext-1" },
   ((C5_payout_machine payoutDemo).1 rfl).2 { code := "INSUFFICIENT_FUNDS" },
   ((C5_payout_machine payoutDemoDone).2 (Or.inl rfl)).1⟩

/-- C6: every gateway-facing operation resolves its processor through
`get_processor`, which takes the class from the global registry when the
payment's stored backend name is registered and otherwise imports the
backend module and uses its `PaymentProcessor`; `prepare_transaction`,
`charge`, `release_lock`, `start_refund`, `cancel_refund`,
`handle_paywall_callback` and `fetch_status` all delegate the gateway
communication to that resolved processor instance. -/
theorem C6_backend_delegation (env : BackendEnv) (p : Payment) :
    (∀ cls, env.registry p.backend = some cls → get_processor env p = cls p) ∧
    (env.registry p.backend = none →
      get_processor env p = env.module_import p.backend p) ∧
    (∀ request, prepare_transaction env p request =
      (get_processor env p).prepare_transaction_r request) ∧
    (∀ request, handle_paywall_callback env p request =
      (get_processor env p).handle_paywall_callback_r request) ∧
    (fetch_status env p = (get_processor env p).fetch_payment_status_r) ∧
    (∀ amount, charge_op env p amount =
      charge p amount ((get_processor env p).charge_r (amount.getD p.amount_locked))) ∧
    (release_lock_op env p =
      (release_lock p).map (fun q => (q, (get_processor env p).release_lock_r))) ∧
    (∀ amount q calls, start_refund p amount = (.ok q, calls) →
      start_refund_op env p amount =
        .ok (q, (get_processor env p).start_refund_r (amount.getD p.amount_paid))) ∧
    (cancel_refund_op env p =
      (cancel_refund p).map (fun q => (q, (get_processor env p).cancel_refund_r))) := by
  refine ⟨?_, ?_, fun _ => rfl, fun _ => rfl, rfl, fun _ => rfl, rfl, ?_, rfl⟩
  · intro cls h
    simp [get_processor, h]
  · intro h
    simp [get_processor, h]
  · intro amount q calls h
    simp [start_refund_op, h]

theorem C6_backend_delegation_witness :
    get_processor demoEnv chargeDemoPayment = demoProcessor chargeDemoPayment ∧
    get_processor demoEnv { chargeDemoPayment with backend := "other_backend" } =
      demoEnv.module_import "other_backend"
        { chargeDemoPayment with backend := "other_backend" } :=
  ⟨(C6_backend_delegation demoEnv chargeDemoPayment).1 demoProcessor rfl,
   (C6_backend_delegation demoEnv
      { chargeDemoPayment with backend := "other_backend" }).2.1 rfl⟩

/-! ## Helper invariants over `Step` -/

/-- Any single transition either leaves `fraud_status` alone, or is one of
the declared fraud edges (out of `UNKNOWN`, or out of `CHECK`). -/
theorem step_fraud_cases {p q : Payment} (h : Step p q) :
    q.fraud_status = p.fraud_status ∨
    (p.fraud_status = .UNKNOWN ∧
      (q.fraud_status = .REJECTED ∨ q.fraud_status = .ACCEPTED ∨
        q.fraud_status = .CHECK)) ∨
    (p.fraud_status = .CHECK ∧
      (q.fraud_status = .REJECTED ∨ q.fraud_status = .ACCEPTED)) := by
  rcases step_cases h with
    ⟨h1, rfl⟩ | ⟨a, h1, rfl⟩ | ⟨h1, rfl⟩ | ⟨a, h1, rfl⟩ | ⟨h1, rfl⟩ | ⟨h1, h2, rfl⟩ |
    ⟨h1, rfl⟩ | ⟨h1, rfl⟩ | ⟨h1, rfl⟩ | ⟨a, h1, rfl⟩ | ⟨h1, h2, rfl⟩ | ⟨h1, rfl⟩ |
    ⟨m, f2, h1, hf, rfl⟩ | ⟨m, f2, h1, hf, rfl⟩
  · exact Or.inl rfl
  · exact Or.inl rfl
  · exact Or.inl rfl
  · exact Or.inl rfl
  · exact Or.inl rfl
  · exact Or.inl rfl
  · exact Or.inl rfl
  · exact Or.inl rfl
  · exact Or.inl rfl
  · exact Or.inl rfl
  · exact Or.inl rfl
  · exact Or.inl rfl
  · exact Or.inr (Or.inl ⟨h1, hf⟩)
  · exact Or.inr (Or.inr ⟨h1, hf⟩)

/-- A single transition preserves "if `PAID` then fully paid". -/
theorem step_preserves_paidInv {p q : Payment} (h : Step p q)
    (hp : p.status = .PAID → p.amount_required ≤ p.amount_paid) :
    q.status = .PAID → q.amount_required ≤ q.amount_paid := by
  rcases step_cases h with
    ⟨h1, rfl⟩ | ⟨a, h1, rfl⟩ | ⟨h1, rfl⟩ | ⟨a, h1, rfl⟩ | ⟨h1, rfl⟩ | ⟨h1, h2, rfl⟩ |
    ⟨h1, rfl⟩ | ⟨h1, rfl⟩ | ⟨h1, rfl⟩ | ⟨a, h1, rfl⟩ | ⟨h1, h2, rfl⟩ | ⟨h1, rfl⟩ |
    ⟨m, f2, h1, hf, rfl⟩ | ⟨m, f2, h1, hf, rfl⟩
  · exact fun hq => PaymentStatus.noConfusion hq
  · exact fun hq => PaymentStatus.noConfusion hq
  · exact fun hq => PaymentStatus.noConfusion hq
  · exact fun hq => PaymentStatus.noConfusion hq
  · exact fun hq => PaymentStatus.noConfusion hq
  · exact fun _ => h2
  · exact fun hq => PaymentStatus.noConfusion hq
  · exact fun hq => PaymentStatus.noConfusion hq
  · exact fun hq => PaymentStatus.noConfusion hq
  · exact fun hq => PaymentStatus.noConfusion hq
  · exact fun hq => PaymentStatus.noConfusion hq
  · exact fun hq => PaymentStatus.noConfusion hq
  · exact hp
  · exact hp

/-- A single transition never leaves the advanced region
(`IN_CHARGE`, `PARTIAL`, `PAID`, `REFUND_STARTED`, `REFUNDED`). -/
theorem step_preserves_advanced {p q : Payment} (h : Step p q)
    (hp : AdvancedStatus p.status) : AdvancedStatus q.status := by
  rcases step_cases h with
    ⟨h1, rfl⟩ | ⟨a, h1, rfl⟩ | ⟨h1, rfl⟩ | ⟨a, h1, rfl⟩ | ⟨h1, rfl⟩ | ⟨h1, h2, rfl⟩ |
    ⟨h1, rfl⟩ | ⟨h1, rfl⟩ | ⟨h1, rfl⟩ | ⟨a, h1, rfl⟩ | ⟨h1, h2, rfl⟩ | ⟨h1, rfl⟩ |
    ⟨m, f2, h1, hf, rfl⟩ | ⟨m, f2, h1, hf, rfl⟩
  · rw [h1] at hp
    exact absurd hp (by decide)
  · rcases h1 with h1 | h1 <;> rw [h1] at hp <;> exact absurd hp (by decide)
  · rw [h1] at hp
    exact absurd hp (by decide)
  · exact Or.inr (Or.inl rfl)
  · exact Or.inr (Or.inl rfl)
  · exact Or.inr (Or.inr (Or.inl rfl))
  · rw [h1] at hp
    exact absurd hp (by decide)
  · exact Or.inr (Or.inr (Or.inr (Or.inl rfl)))
  · exact Or.inr (Or.inl rfl)
  · exact Or.inr (Or.inl rfl)
  · exact Or.inr (Or.inr (Or.inr (Or.inr rfl)))
  · rcases h1 with h1 | h1 | h1 <;> rw [h1] at hp <;> exact absurd hp (by decide)
  · exact hp
  · exact hp

/-- C3: the payment FSM realizes the full declared lifecycle: each listed
transition fires from exactly the listed sources and reaches the listed
target (with `mark_as_paid` additionally guarded by
`amount_paid >= amount_required` and `mark_as_refunded` by
`amount_refunded = amount_paid`), and every status other than `FAILED` is
reachable from a fresh `NEW` payment by some sequence of transitions. -/
theorem C3_payment_lifecycle :
    (∀ p : Payment, p.status = .NEW →
      confirm_prepared p = some { p with status := .PREPARED }) ∧
    (∀ (p : Payment) (amount : Option ℤ), p.status = .NEW ∨ p.status = .PREPARED →
      ∃ q, confirm_lock p amount = some q ∧ q.status = .PRE_AUTH) ∧
    (∀ p : Payment, p.status = .PRE_AUTH →
      confirm_charge_sent p = some { p with status := .IN_CHARGE }) ∧
    (∀ (p : Payment) (amount : Option ℤ),
      p.status = .PREPARED ∨ p.status = .PRE_AUTH ∨ p.status = .IN_CHARGE ∨
        p.status = .PARTIALLY_PAID →
      ∃ q, confirm_payment p amount = some q ∧ q.status = .PARTIALLY_PAID) ∧
    (∀ p : Payment, (∃ q, mark_as_paid p = some q ∧ q.status = .PAID) ↔
      p.status = .PARTIALLY_PAID ∧ p.amount_required ≤ p.amount_paid) ∧
    (∀ p : Payment, p.status = .PAID ∨ p.status = .PARTIALLY_PAID →
      ∃ q, (start_refund p none).1 = .ok q ∧ q.status = .REFUND_STARTED) ∧
    (∀ (p : Payment) (amount : Option ℤ), p.status = .REFUND_STARTED →
      ∃ q, confirm_refund p amount = some q ∧ q.status = .PARTIALLY_PAID) ∧
    (∀ p : Payment, p.status = .REFUND_STARTED →
      ∃ q, cancel_refund p = some q ∧ q.status = .PARTIALLY_PAID) ∧
    (∀ p : Payment, (∃ q, mark_as_refunded p = some q ∧ q.status = .REFUNDED) ↔
      (p.status = .REFUND_STARTED ∨ p.status = .PARTIALLY_PAID) ∧
      p.amount_refunded = p.amount_paid) ∧
    (∀ s : PaymentStatus, s ≠ .FAILED →
      ∃ q, Reach (newPayment "b" 1) q ∧ q.status = s) := by
  refine ⟨?_, ?_, ?_, ?_, ?_, ?_, ?_, ?_, ?_, ?_⟩
  · intro p h
    exact confirm_prepared_some.mpr ⟨h, rfl⟩
  · intro p amount h
    exact ⟨_, confirm_lock_some.mpr ⟨h, rfl⟩, rfl⟩
  · intro p h
    exact confirm_charge_sent_some.mpr ⟨h, rfl⟩
  · intro p amount h
    have h2 : p.status = .PRE_AUTH ∨ p.status = .PREPARED ∨ p.status = .IN_CHARGE ∨
        p.status = .PARTIALLY_PAID := by tauto
    cases amount with
    | none => exact ⟨_, confirm_payment_none.mpr ⟨h2, rfl⟩, rfl⟩
    | some a => exact ⟨_, confirm_payment_some.mpr ⟨h2, rfl⟩, rfl⟩
  · intro p
    constructor
    · rintro ⟨q, hq, -⟩
      obtain ⟨h1, h2, -⟩ := mark_as_paid_some.mp hq
      exact ⟨h1, h2⟩
    · rintro ⟨h1, h2⟩
      exact ⟨_, mark_as_paid_some.mpr ⟨h1, h2, rfl⟩, rfl⟩
  · intro p h
    exact ⟨_, start_refund_ok.mpr ⟨h, by simp, rfl⟩, rfl⟩
  · intro p amount h
    exact ⟨_, confirm_refund_some.mpr ⟨h, rfl⟩, rfl⟩
  · intro p h
    exact ⟨_, cancel_refund_some.mpr ⟨h, rfl⟩, rfl⟩
  · intro p
    constructor
    · rintro ⟨q, hq, -⟩
      obtain ⟨h1, h2, -⟩ := mark_as_refunded_some.mp hq
      exact ⟨h1, h2⟩
    · rintro ⟨h1, h2⟩
      exact ⟨_, mark_as_refunded_some.mpr ⟨h1, h2, rfl⟩, rfl⟩
  · intro s hs
    cases s with
    | NEW => exact ⟨newPayment "b" 1, Reach.refl _, rfl⟩
    | PREPARED =>
      exact ⟨{ backend := "b", amount_required := 1, status := .PREPARED,
               amount_locked := 0, amount_paid := 0, amount_refunded := 0,
               fraud_status := .UNKNOWN, fraud_message := "" },
             runPath_reach [.prepared] (by decide), rfl⟩
    | PRE_AUTH =>
      exact ⟨{ backend := "b", amount_required := 1, status := .PRE_AUTH,
               amount_locked := 1, amount_paid := 0, amount_refunded := 0,
               fraud_status := .UNKNOWN, fraud_message := "" },
             runPath_reach [.lock none] (by decide), rfl⟩
    | IN_CHARGE =>
      exact ⟨{ backend := "b", amount_required := 1, status := .IN_CHARGE,
               amount_locked := 1, amount_paid := 0, amount_refunded := 0,
               fraud_status := .UNKNOWN, fraud_message := "" },
             runPath_reach [.lock none, .chargeSent] (by decide), rfl⟩
    | PARTIALLY_PAID =>
      exact ⟨partialDemoPayment,
             runPath_reach [.lock none, .payment none] (by decide), rfl⟩
    | PAID =>
      exact ⟨{ partialDemoPayment with status := .PAID },
             runPath_reach [.lock none, .payment none, .markPaid] (by decide), rfl⟩
    | FAILED => exact absurd rfl hs
    | REFUND_STARTED =>
      exact ⟨{ partialDemoPayment with status := .REFUND_STARTED },
             runPath_reach [.lock none, .payment none, .startRefund none] (by decide),
             rfl⟩
    | REFUNDED =>
      exact ⟨{ partialDemoPayment with status := .REFUNDED, amount_refunded := 1 },
             runPath_reach
               [.lock none, .payment none, .startRefund none, .confirmRefund none,
                .markRefunded] (by decide), rfl⟩

theorem C3_payment_lifecycle_witness :
    confirm_prepared (newPayment "b" 1) =
      some { newPayment "b" 1 with status := .PREPARED } :=
  C3_payment_lifecycle.1 (newPayment "b" 1) rfl

/-- A successful `charge` never touches `fraud_status`. -/
theorem charge_ok_fraud {p q : Payment} {amount : Option ℤ} {result : ChargeResult}
    {tr : List ProcCall} (h : charge p amount result = (.ok q, tr)) :
    q.fraud_status = p.fraud_status := by
  unfold charge at h
  dsimp only at h
  split at h
  · simp at h
  · split at h
    · split at h
      · rename_i p2 heq
        split at h
        · rename_i p3 heq2
          simp only [Prod.mk.injEq, Except.ok.injEq] at h
          obtain ⟨rfl, -⟩ := h
          obtain ⟨-, -, rfl⟩ := mark_as_paid_some.mp heq2
          obtain ⟨-, rfl⟩ := confirm_payment_none.mp heq
          rfl
        · simp only [Prod.mk.injEq, Except.ok.injEq] at h
          obtain ⟨rfl, -⟩ := h
          obtain ⟨-, rfl⟩ := confirm_payment_none.mp heq
          rfl
      · simp at h
    · split at h
      · split at h
        · rename_i p1 heq
          simp only [Prod.mk.injEq, Except.ok.injEq] at h
          obtain ⟨rfl, -⟩ := h
          obtain ⟨-, rfl⟩ := confirm_charge_sent_some.mp heq
          rfl
        · simp only [Prod.mk.injEq, Except.ok.injEq] at h
          obtain ⟨rfl, -⟩ := h
          rfl
      · simp at h

/-- C4: the fraud sub-state machine.  A fresh payment has fraud status
`UNKNOWN`; from `UNKNOWN` the processor-driven transitions go to
`REJECTED`, `ACCEPTED` or `CHECK` (assigning the message); from `CHECK`
the manual decisions go to `REJECTED` or `ACCEPTED`, appending a manual
marker and the message to `fraud_message`; these are the only fraud
transitions (so the machine is acyclic), and once the fraud status is
`ACCEPTED` or `REJECTED` no sequence of transitions - nor any run of
`charge` - ever changes it again. -/
theorem C4_fraud_machine :
    (∀ (b : String) (r : ℤ), (newPayment b r).fraud_status = .UNKNOWN) ∧
    (∀ (p : Payment) (m : String), p.fraud_status = .UNKNOWN →
      ___mark_as_fraud p m =
        some { p with fraud_status := .REJECTED, fraud_message := m } ∧
      ___mark_as_legit p m =
        some { p with fraud_status := .ACCEPTED, fraud_message := m } ∧
      ___mark_for_check p m =
        some { p with fraud_status := .CHECK, fraud_message := m }) ∧
    (∀ (p : Payment) (m : String), p.fraud_status = .CHECK →
      mark_as_fraud p m =
        some { p with fraud_status := .REJECTED,
                      fraud_message :=
                        p.fraud_message ++ "\n==MANUAL REJECT==\n" ++ m } ∧
      mark_as_legit p m =
        some { p with fraud_status := .ACCEPTED,
                      fraud_message :=
                        p.fraud_message ++ "\n==MANUAL ACCEPT==\n" ++ m }) ∧
    (∀ p q : Payment, Step p q → q.fraud_status ≠ p.fraud_status →
      (p.fraud_status = .UNKNOWN ∧
        (q.fraud_status = .REJECTED ∨ q.fraud_status = .ACCEPTED ∨
          q.fraud_status = .CHECK)) ∨
      (p.fraud_status = .CHECK ∧
        (q.fraud_status = .REJECTED ∨ q.fraud_status = .ACCEPTED))) ∧
    (∀ p q : Payment,
      p.fraud_status = .ACCEPTED ∨ p.fraud_status = .REJECTED →
      Reach p q → q.fraud_status = p.fraud_status) ∧
    (∀ (p : Payment) (amount : Option ℤ) (result : ChargeResult),
      ((chargeAtomic p amount result).1).fraud_status = p.fraud_status) := by
  refine ⟨fun _ _ => rfl, ?_, ?_, ?_, ?_, ?_⟩
  · intro p m h
    exact ⟨___mark_as_fraud_some.mpr ⟨h, rfl⟩, ___mark_as_legit_some.mpr ⟨h, rfl⟩,
      ___mark_for_check_some.mpr ⟨h, rfl⟩⟩
  · intro p m h
    exact ⟨mark_as_fraud_some.mpr ⟨h, rfl⟩, mark_as_legit_some.mpr ⟨h, rfl⟩⟩
  · intro p q hs hne
    rcases step_fraud_cases hs with he | h | h
    · exact absurd he hne
    · exact Or.inl h
    · exact Or.inr h
  · intro p q hp hr
    induction hr with
    | refl => rfl
    | tail hr hs ih =>
      rcases step_fraud_cases hs with he | ⟨h1, -⟩ | ⟨h1, -⟩
      · rw [he, ih]
      · rw [ih] at h1
        rcases hp with hp | hp <;> rw [hp] at h1 <;> exact FraudStatus.noConfusion h1
      · rw [ih] at h1
        rcases hp with hp | hp <;> rw [hp] at h1 <;> exact FraudStatus.noConfusion h1
  · intro p amount result
    unfold chargeAtomic
    split
    · rename_i q tr heq
      exact charge_ok_fraud heq
    · rfl

theorem C4_fraud_machine_witness :
    mark_as_fraud checkDemoPayment "manual review: stolen card" =
      some { checkDemoPayment with
               fraud_status := .REJECTED,
               fraud_message :=
                 checkDemoPayment.fraud_message ++ "\n==MANUAL REJECT==\n" ++
                   "manual review: stolen card" } :=
  (C4_fraud_machine.2.2.1 checkDemoPayment "manual review: stolen card" rfl).1

/-- C9 (amended): the paid-state invariant.  In every state reachable
from a fresh payment by declared transitions, status `PAID` implies
`amount_paid >= amount_required`; `mark_as_paid` is the only transition
into `PAID` and is guarded by the fully-paid condition; and no transition
from a state with nonnegative `amount_locked` and `amount_required`
decreases `amount_paid`, except `confirm_payment` called with a negative
amount (the code does not guard against negative amounts - see the
counterexample). -/
theorem C9_paid_state_invariant :
    (∀ (b : String) (r : ℤ) (p : Payment), Reach (newPayment b r) p →
      p.status = .PAID → p.amount_required ≤ p.amount_paid) ∧
    (∀ p q : Payment, Step p q → q.status = .PAID →
      p.status = .PAID ∨ mark_as_paid p = some q) ∧
    (∀ p q : Payment, mark_as_paid p = some q →
      p.status = .PARTIALLY_PAID ∧ p.amount_required ≤ p.amount_paid ∧
      q = { p with status := .PAID }) ∧
    (∀ p q : Payment, Step p q → 0 ≤ p.amount_locked → 0 ≤ p.amount_required →
      p.amount_paid ≤ q.amount_paid ∨
      ∃ a, a < 0 ∧ confirm_payment p (some a) = some q) := by
  refine ⟨?_, ?_, ?_, ?_⟩
  · intro b r p hr
    induction hr with
    | refl => exact fun h => PaymentStatus.noConfusion h
    | tail hr hs ih => exact step_preserves_paidInv hs ih
  · intro p q hs hq
    rcases step_cases hs with
      ⟨h1, rfl⟩ | ⟨a, h1, rfl⟩ | ⟨h1, rfl⟩ | ⟨a, h1, rfl⟩ | ⟨h1, rfl⟩ | ⟨h1, h2, rfl⟩ |
      ⟨h1, rfl⟩ | ⟨h1, rfl⟩ | ⟨h1, rfl⟩ | ⟨a, h1, rfl⟩ | ⟨h1, h2, rfl⟩ | ⟨h1, rfl⟩ |
      ⟨m, f2, h1, hf, rfl⟩ | ⟨m, f2, h1, hf, rfl⟩
    · exact PaymentStatus.noConfusion hq
    · exact PaymentStatus.noConfusion hq
    · exact PaymentStatus.noConfusion hq
    · exact PaymentStatus.noConfusion hq
    · exact PaymentStatus.noConfusion hq
    · exact Or.inr (mark_as_paid_some.mpr ⟨h1, h2, rfl⟩)
    · exact PaymentStatus.noConfusion hq
    · exact PaymentStatus.noConfusion hq
    · exact PaymentStatus.noConfusion hq
    · exact PaymentStatus.noConfusion hq
    · exact PaymentStatus.noConfusion hq
    · exact PaymentStatus.noConfusion hq
    · exact Or.inl hq
    · exact Or.inl hq
  · intro p q h
    exact mark_as_paid_some.mp h
  · intro p q hs hl hr0
    rcases step_cases hs with
      ⟨h1, rfl⟩ | ⟨a, h1, rfl⟩ | ⟨h1, rfl⟩ | ⟨a, h1, rfl⟩ | ⟨h1, rfl⟩ | ⟨h1, h2, rfl⟩ |
      ⟨h1, rfl⟩ | ⟨h1, rfl⟩ | ⟨h1, rfl⟩ | ⟨a, h1, rfl⟩ | ⟨h1, h2, rfl⟩ | ⟨h1, rfl⟩ |
      ⟨m, f2, h1, hf, rfl⟩ | ⟨m, f2, h1, hf, rfl⟩
    · exact Or.inl (le_refl _)
    · exact Or.inl (le_refl _)
    · exact Or.inl (le_refl _)
    · rcases le_or_lt 0 a with ha | ha
      · refine Or.inl ?_
        show p.amount_paid ≤ p.amount_paid + a
        omega
      · exact Or.inr ⟨a, ha, confirm_payment_some.mpr ⟨h1, rfl⟩⟩
    · refine Or.inl ?_
      show p.amount_paid ≤ p.amount_paid +
        if p.amount_locked = 0 then p.amount_required else p.amount_locked
      split <;> omega
    · exact Or.inl (le_refl _)
    · exact Or.inl (le_refl _)
    · exact Or.inl (le_refl _)
    · exact Or.inl (le_refl _)
    · exact Or.inl (le_refl _)
    · exact Or.inl (le_refl _)
    · exact Or.inl (le_refl _)
    · exact Or.inl (le_refl _)
    · exact Or.inl (le_refl _)

theorem C9_paid_state_invariant_witness :
    partialDemoPayment.status = .PARTIALLY_PAID ∧
    partialDemoPayment.amount_required ≤ partialDemoPayment.amount_paid ∧
    ({ partialDemoPayment with status := .PAID } : Payment) =
      { partialDemoPayment with status := .PAID } :=
  C9_paid_state_invariant.2.2.1 partialDemoPayment
    { partialDemoPayment with status := .PAID } (by decide)

/-- C9 counterexample: the clause "no transition ever decreases
`amount_paid`" is false as stated.  `partialDemoPayment` is reachable
from a fresh payment, and `confirm_payment(amount=-1)` - a declared
transition with an unguarded amount argument - takes its `amount_paid`
from 1 down to 0. -/
theorem C9_negative_amount_decreases_paid :
    Reach (newPayment "b" 1) partialDemoPayment ∧
    Step partialDemoPayment partialDemoAfterNeg ∧
    partialDemoAfterNeg.amount_paid < partialDemoPayment.amount_paid :=
  ⟨runPath_reach [.lock none, .payment none] (by decide),
   Step.payment (some (-1)) (by decide),
   by decide⟩

/-- C10: a payment can move to `FAILED` only from `NEW`, `PREPARED` or
`PRE_AUTH`; no single transition reaches `FAILED` from anywhere else, and
once a payment is in `IN_CHARGE`, `PARTIAL`, `PAID`, `REFUND_STARTED` or
`REFUNDED`, every state reachable by any sequence of transitions stays in
that region, so it is never `FAILED`. -/
theorem C10_failed_only_from_early :
    (∀ p q : Payment, fail p = some q →
      (p.status = .NEW ∨ p.status = .PREPARED ∨ p.status = .PRE_AUTH) ∧
      q.status = .FAILED) ∧
    (∀ p q : Payment, Step p q → q.status = .FAILED →
      p.status = .NEW ∨ p.status = .PREPARED ∨ p.status = .PRE_AUTH ∨
      p.status = .FAILED) ∧
    (∀ p q : Payment, AdvancedStatus p.status → Reach p q →
      AdvancedStatus q.status ∧ q.status ≠ .FAILED) := by
  refine ⟨?_, ?_, ?_⟩
  · intro p q h
    obtain ⟨h1, rfl⟩ := fail_some.mp h
    exact ⟨by tauto, rfl⟩
  · intro p q hs hq
    rcases step_cases hs with
      ⟨h1, rfl⟩ | ⟨a, h1, rfl⟩ | ⟨h1, rfl⟩ | ⟨a, h1, rfl⟩ | ⟨h1, rfl⟩ | ⟨h1, h2, rfl⟩ |
      ⟨h1, rfl⟩ | ⟨h1, rfl⟩ | ⟨h1, rfl⟩ | ⟨a, h1, rfl⟩ | ⟨h1, h2, rfl⟩ | ⟨h1, rfl⟩ |
      ⟨m, f2, h1, hf, rfl⟩ | ⟨m, f2, h1, hf, rfl⟩
    · exact PaymentStatus.noConfusion hq
    · exact PaymentStatus.noConfusion hq
    · exact PaymentStatus.noConfusion hq
    · exact PaymentStatus.noConfusion hq
    · exact PaymentStatus.noConfusion hq
    · exact PaymentStatus.noConfusion hq
    · exact PaymentStatus.noConfusion hq
    · exact PaymentStatus.noConfusion hq
    · exact PaymentStatus.noConfusion hq
    · exact PaymentStatus.noConfusion hq
    · exact PaymentStatus.noConfusion hq
    · tauto
    · exact Or.inr (Or.inr (Or.inr hq))
    · exact Or.inr (Or.inr (Or.inr hq))
  · intro p q hp hr
    have ha : AdvancedStatus q.status := by
      induction hr with
      | refl => exact hp
      | tail hr hs ih => exact step_preserves_advanced hs ih
    refine ⟨ha, ?_⟩
    rcases ha with h | h | h | h | h <;> rw [h] <;> decide

theorem C10_failed_only_from_early_witness :
    AdvancedStatus paidDemoPayment.status ∧ paidDemoPayment.status ≠ .FAILED :=
  C10_failed_only_from_early.2.2 paidDemoPayment paidDemoPayment
    (Or.inr (Or.inr (Or.inl rfl))) (Reach.refl _)

end GetPaid
